import Mathlib

/-
Verification of the application layer of `stm32_modul/Core/Src/main.c`:
a shallow embedding of the Wi-Fi modem command/response state machine,
the interrupt-fed receive buffer, the sensor packetizer and the
connection/send orchestrator, with theorems checking the documented
behaviour against the code.

Machine integers are modelled as `Nat` (unsigned) or `Int` (signed),
with explicit `% 2 ^ 32` wraparound where the C code relies on
`uint32_t` arithmetic (tick differences).
-/

/-! Response status constants (`#define` block, main.c lines 52-58). -/

def TIMEOUT : Nat := 0

def SUCCESS : Nat := 1

def ERROR : Nat := 2

def WAITING : Nat := 3

def IDLE : Nat := 4

def SEND_REQUEST : Nat := 5

/-! Setup stage constants (`#define` block, main.c lines 60-67). -/

def AT_TEST : Nat := 0

def AT_SET_CONNECT_MODE : Nat := 1

def AT_SET_MAX_CONNECTIONS : Nat := 2

def AT_START_SERVER : Nat := 3

def AT_SEND_HTML_HEADER : Nat := 4

def AT_SEND_HTML : Nat := 5

def AT_SEND_CONNECT_REQUEST : Nat := 6

/-! Transmission mode constants (main.c lines 78-82). -/

def MODE_NONE : Nat := 0

def MODE_BINARY_UART : Nat := 1

def MODE_ASCII_UART : Nat := 2

def MODE_BINARY_CDC : Nat := 3

def MODE_ASCII_CDC : Nat := 4

/-- `#define RX_BUFFER_SIZE 2048 * 4` (main.c line 84). -/
def RX_BUFFER_SIZE : Nat := 2048 * 4

/-- Wrapping `uint32_t` subtraction `a - b`, as computed by C on the
free-running tick counter.  Operands are reduced mod `2 ^ 32` first, so
the definition agrees with C for any already-in-range values. -/
def usub32 (a b : Nat) : Nat :=
  (a % 2 ^ 32 + (2 ^ 32 - b % 2 ^ 32)) % 2 ^ 32

/-- `Change_Response_Status` (main.c lines 444-454), acting on the pair
of globals `(response_status, has_response_changed)`.  The C guard is
`new_status < 0 || new_status > 5` on a `uint8_t`, whose first disjunct
is always false, so the guard is exactly `new_status > 5`. -/
def Change_Response_Status (response_status has_response_changed new_status : Nat) :
    Nat × Nat :=
  if new_status > 5 then (response_status, has_response_changed)
  else (new_status, 1)

/-- `Set_Setup_Stage` (main.c lines 640-652), acting on the global
`setup_stage`.  The C guard is `new_stage < 0 || new_stage > 6` on a
`uint8_t`, i.e. exactly `new_stage > 6`.  The valid branch additionally
calls the debug logger, which touches no modelled state. -/
def Set_Setup_Stage (setup_stage new_stage : Nat) : Nat :=
  if new_stage > 6 then setup_stage else new_stage

/-- The command/response globals read and written by `Handle_Response`:
`setup_stage`, `response_status`, `has_response_changed`
(main.c lines 120-122). -/
structure RespState where
  setup_stage : Nat
  response_status : Nat
  has_response_changed : Nat
deriving DecidableEq, Repr

/-- `Handle_Response` (main.c lines 665-725).  On a non-`SUCCESS` status
it clears the RX buffer (modelled separately as `RxState`) and resets
the status to `IDLE`, leaving the stage untouched; on `SUCCESS` it
switches on `setup_stage` to pick the next stage via `Set_Setup_Stage`
(the `default` arm changes no stage), then clears the buffer and resets
the status to `IDLE`. -/
def Handle_Response (s : RespState) : RespState :=
  if s.response_status ≠ SUCCESS then
    let rc := Change_Response_Status s.response_status s.has_response_changed IDLE
    { s with response_status := rc.1, has_response_changed := rc.2 }
  else
    let stage :=
      if s.setup_stage = AT_TEST then
        Set_Setup_Stage s.setup_stage AT_SET_CONNECT_MODE
      else if s.setup_stage = AT_SET_CONNECT_MODE then
        Set_Setup_Stage s.setup_stage AT_SET_MAX_CONNECTIONS
      else if s.setup_stage = AT_SET_MAX_CONNECTIONS then
        Set_Setup_Stage s.setup_stage AT_START_SERVER
      else if s.setup_stage = AT_START_SERVER then
        Set_Setup_Stage s.setup_stage AT_SEND_HTML_HEADER
      else if s.setup_stage = AT_SEND_HTML_HEADER then
        Set_Setup_Stage s.setup_stage AT_SEND_HTML
      else if s.setup_stage = AT_SEND_HTML then
        Set_Setup_Stage s.setup_stage AT_SEND_HTML_HEADER
      else s.setup_stage
    let rc := Change_Response_Status s.response_status s.has_response_changed IDLE
    { setup_stage := stage, response_status := rc.1, has_response_changed := rc.2 }

/-- `Configure_ESP_As_Access_Point` (main.c lines 485-543): the command
string transmitted for each setup stage (`Send_Command` strips nothing;
the C literals carry an explicit trailing `\0` which `strlen`-based
transmission never sends, so it is omitted here).  Stage
`AT_SEND_HTML_HEADER` goes through `Send_HTML_Header` (line 545), stage
`AT_SEND_HTML` sends `html_page2` (line 138); unknown stages send
nothing. -/
def stage_command (stage : Nat) : Option String :=
  if stage = AT_TEST then some "AT\r\n"
  else if stage = AT_SET_CONNECT_MODE then some "AT+CWMODE=3\r\n"
  else if stage = AT_SET_MAX_CONNECTIONS then some "AT+CIPMUX=1\r\n"
  else if stage = AT_START_SERVER then some "AT+CIPSERVER=1,80\r\n"
  else if stage = AT_SEND_HTML_HEADER then some "AT+CIPSEND=0,334\r\n"
  else if stage = AT_SEND_HTML then
    some "HTTP/1.1 200 OK\r\nContent-Type: text/html\r\nContent-Length: 253\r\n\r\n<!DOCTYPE html><html><head><title>Wi-Fi Config</title></head><body><form method=\"GET\" action=\"/\" accept-charset=\"utf-8\">SSID: <input type=\"text\" name=\"ssid\"><br>Password: <input type=\"text\" name=\"password\"><br><input type=\"submit\" value=\"Submit\"></form></body></html>\r\n"
  else none

/-- C1 counterexample: the claim says that on the header-resend stage
(`AT_SEND_HTML_HEADER`) a `Success` response loops the stage back to
itself.  In the code, `Success` at `AT_SEND_HTML_HEADER` advances to
`AT_SEND_HTML` (main.c lines 702-704) — no stage maps to itself. -/
theorem C1_counterexample :
    (Handle_Response ⟨AT_SEND_HTML_HEADER, SUCCESS, 0⟩).setup_stage = AT_SEND_HTML ∧
      AT_SEND_HTML ≠ AT_SEND_HTML_HEADER := by
  decide

/-- C1 amended: for every valid provisioning stage, a `Success` response
advances the stage to its table-defined successor: `Test → SetMode`,
`SetMode → SetMaxConnections`, `SetMaxConnections → StartServer`,
`StartServer → SendHeader`, `SendHeader → SendBody`, and on the body
stage `Success` falls back to the header-resend stage, so that from the
header-resend stage two consecutive `Success` responses return to it (a
header/body oscillation, not a single-stage self-loop). -/
theorem C1_amended (hc : Nat) :
    (Handle_Response ⟨AT_TEST, SUCCESS, hc⟩).setup_stage = AT_SET_CONNECT_MODE ∧
    (Handle_Response ⟨AT_SET_CONNECT_MODE, SUCCESS, hc⟩).setup_stage =
      AT_SET_MAX_CONNECTIONS ∧
    (Handle_Response ⟨AT_SET_MAX_CONNECTIONS, SUCCESS, hc⟩).setup_stage =
      AT_START_SERVER ∧
    (Handle_Response ⟨AT_START_SERVER, SUCCESS, hc⟩).setup_stage =
      AT_SEND_HTML_HEADER ∧
    (Handle_Response ⟨AT_SEND_HTML_HEADER, SUCCESS, hc⟩).setup_stage = AT_SEND_HTML ∧
    (Handle_Response ⟨AT_SEND_HTML, SUCCESS, hc⟩).setup_stage = AT_SEND_HTML_HEADER ∧
    (Handle_Response
        ⟨(Handle_Response ⟨AT_SEND_HTML_HEADER, SUCCESS, hc⟩).setup_stage,
          SUCCESS, hc⟩).setup_stage = AT_SEND_HTML_HEADER := by
  refine ⟨rfl, rfl, rfl, rfl, rfl, rfl, rfl⟩

/-- C2: whenever a command session finishes with status `Error` or
`Timeout`, `Handle_Response` leaves the provisioning stage unchanged and
resets the status to `Idle`, so the command the next `SEND_REQUEST`
trigger issues (via `Configure_ESP_As_Access_Point`) is the same
stage's command. -/
theorem C2_error_timeout_holds_stage (s : RespState)
    (h : s.response_status = ERROR ∨ s.response_status = TIMEOUT) :
    (Handle_Response s).setup_stage = s.setup_stage ∧
      (Handle_Response s).response_status = IDLE ∧
      stage_command (Handle_Response s).setup_stage = stage_command s.setup_stage := by
  obtain ⟨st, rs, hc⟩ := s
  rcases h with h | h <;> simp_all [Handle_Response, Change_Response_Status,
    ERROR, TIMEOUT, SUCCESS, IDLE]

/-- C2 witness: `Handle_Response` at stage `AT_START_SERVER` with status
`ERROR` keeps the stage and yields `IDLE`. -/
theorem C2_witness :
    (Handle_Response ⟨AT_START_SERVER, ERROR, 0⟩).setup_stage = AT_START_SERVER ∧
      (Handle_Response ⟨AT_START_SERVER, ERROR, 0⟩).response_status = IDLE ∧
      stage_command (Handle_Response ⟨AT_START_SERVER, ERROR, 0⟩).setup_stage =
        stage_command AT_START_SERVER :=
  C2_error_timeout_holds_stage ⟨AT_START_SERVER, ERROR, 0⟩ (Or.inl rfl)

/-- C6: for every status value outside `0..5`, `Change_Response_Status`
is a no-op on `(response_status, has_response_changed)`, and for every
stage value outside `0..6`, `Set_Setup_Stage` is a no-op on
`setup_stage`.  (The arguments are `uint8_t`, so "outside the
enumeration" means strictly greater than 5, resp. 6.) -/
theorem C6_out_of_range_noop :
    (∀ rs hc n, 5 < n → Change_Response_Status rs hc n = (rs, hc)) ∧
      (∀ st n, 6 < n → Set_Setup_Stage st n = st) := by
  constructor
  · intro rs hc n h
    simp [Change_Response_Status, h]
  · intro st n h
    simp [Set_Setup_Stage, h]

/-- C6 witness: status 6 and stage 7 are rejected with no state change. -/
theorem C6_witness :
    Change_Response_Status IDLE 0 6 = (IDLE, 0) ∧ Set_Setup_Stage AT_TEST 7 = AT_TEST :=
  ⟨C6_out_of_range_noop.1 IDLE 0 6 (by decide),
    C6_out_of_range_noop.2 AT_TEST 7 (by decide)⟩

/-! ## Receive buffer (C3) -/

/-- The receive-buffer globals `rx_index` and `rx_buffer`
(main.c lines 110-112); the buffer is a total map from position to byte
value. -/
structure RxState where
  rx_index : Nat
  rx_buffer : Nat → Nat

/-- `HAL_UART_RxCpltCallback` for USART2 (main.c lines 808-832).  Before
the callback runs, the HAL has stored the received byte `b` at
`rx_buffer[rx_index]` (the reception armed by the previous call targeted
that slot).  The callback then either advances the index and writes a
null terminator one past the new index, or — at the
`RX_BUFFER_SIZE - 2` boundary — wraps the index to 0 and writes a null
terminator at position 1. -/
def HAL_UART_RxCpltCallback (s : RxState) (b : Nat) : RxState :=
  let buf := fun j => if j = s.rx_index then b else s.rx_buffer j
  if s.rx_index < RX_BUFFER_SIZE - 2 then
    { rx_index := s.rx_index + 1,
      rx_buffer := fun j => if j = s.rx_index + 1 + 1 then 0 else buf j }
  else
    { rx_index := 0,
      rx_buffer := fun j => if j = 1 then 0 else buf j }

/-- `Clear_RX_Buffer` (main.c lines 456-465): abort reception, zero the
whole buffer, reset the index, re-arm reception. -/
def Clear_RX_Buffer (_ : RxState) : RxState :=
  { rx_index := 0, rx_buffer := fun _ => 0 }

/-- A sequence of receive-complete interrupts, one byte each. -/
def rxAppendAll (s : RxState) (bs : List Nat) : RxState :=
  bs.foldl HAL_UART_RxCpltCallback s

/-- The buffer holds a null terminator at or before position
`rx_index + 1`. -/
def rxNullTerminated (s : RxState) : Prop :=
  ∃ j, j ≤ s.rx_index + 1 ∧ s.rx_buffer j = 0

/-- Any single append leaves the index at most `RX_BUFFER_SIZE - 2`. -/
theorem rxCplt_index_le (s : RxState) (b : Nat) :
    (HAL_UART_RxCpltCallback s b).rx_index ≤ RX_BUFFER_SIZE - 2 := by
  unfold HAL_UART_RxCpltCallback
  split
  · simp
    omega
  · simp

/-- Any single append leaves the buffer null-terminated. -/
theorem rxCplt_nullTerminated (s : RxState) (b : Nat) :
    rxNullTerminated (HAL_UART_RxCpltCallback s b) := by
  unfold HAL_UART_RxCpltCallback rxNullTerminated
  by_cases h : s.rx_index < RX_BUFFER_SIZE - 2
  · simp only [if_pos h]
    exact ⟨s.rx_index + 1 + 1, by omega, by simp⟩
  · simp only [if_neg h]
    exact ⟨1, by omega, by simp⟩

/-- C3: for every sequence of received bytes from a state within bounds
(e.g. the reset state), the receive index never exceeds
`RX_BUFFER_SIZE - 2`; an append arriving exactly at that boundary wraps
the index to 0 and re-writes the null terminator at position 1; the
buffer is null-terminated after every interrupt append and after every
foreground `Clear_RX_Buffer`. -/
theorem C3_rx_buffer_invariant :
    (∀ s bs, s.rx_index ≤ RX_BUFFER_SIZE - 2 →
      (rxAppendAll s bs).rx_index ≤ RX_BUFFER_SIZE - 2) ∧
    (∀ s b, s.rx_index = RX_BUFFER_SIZE - 2 →
      (HAL_UART_RxCpltCallback s b).rx_index = 0 ∧
        (HAL_UART_RxCpltCallback s b).rx_buffer 1 = 0) ∧
    (∀ s b, rxNullTerminated (HAL_UART_RxCpltCallback s b)) ∧
    (∀ s, (Clear_RX_Buffer s).rx_index = 0 ∧ rxNullTerminated (Clear_RX_Buffer s)) := by
  refine ⟨?_, ?_, rxCplt_nullTerminated, ?_⟩
  · intro s bs
    induction bs generalizing s with
    | nil => intro h; exact h
    | cons b bs ih =>
      intro _
      exact ih (HAL_UART_RxCpltCallback s b) (rxCplt_index_le s b)
  · intro s b h
    unfold HAL_UART_RxCpltCallback
    rw [h]
    simp
  · intro s
    exact ⟨rfl, ⟨0, by omega, rfl⟩⟩

/-- C3 witness: appending two bytes to the reset state keeps the index
in bounds; a state at the boundary index 8190 wraps to 0 with a null
terminator at position 1. -/
theorem C3_witness :
    (rxAppendAll ⟨0, fun _ => 0⟩ [65, 66]).rx_index ≤ RX_BUFFER_SIZE - 2 ∧
      (HAL_UART_RxCpltCallback ⟨RX_BUFFER_SIZE - 2, fun _ => 0⟩ 65).rx_index = 0 ∧
      (HAL_UART_RxCpltCallback ⟨RX_BUFFER_SIZE - 2, fun _ => 0⟩ 65).rx_buffer 1 = 0 :=
  ⟨C3_rx_buffer_invariant.1 ⟨0, fun _ => 0⟩ [65, 66] (by decide),
    C3_rx_buffer_invariant.2.1 ⟨RX_BUFFER_SIZE - 2, fun _ => 0⟩ 65 rfl⟩

/-! ## Timeout check (C4) -/

/-- `Is_Timedout` (main.c lines 476-483): returns 1 exactly when the
wrapping `uint32_t` difference `current_tick - tick_when_sent` is
strictly greater than `timeout_ms`. -/
def Is_Timedout (tick_when_sent current_tick timeout_ms : Nat) : Bool :=
  usub32 current_tick tick_when_sent > timeout_ms

/-- The main-loop timeout transition (main.c lines 1093-1095):
`if (Is_Timedout(5000) == 1 && response_status == WAITING)
 Change_Response_Status(TIMEOUT);` -/
def timeoutStep (s : RespState) (tick_when_sent current_tick : Nat) : RespState :=
  if Is_Timedout tick_when_sent current_tick 5000 &&
      (s.response_status == WAITING) then
    let rc := Change_Response_Status s.response_status s.has_response_changed TIMEOUT
    { s with response_status := rc.1, has_response_changed := rc.2 }
  else s

/-- C4 counterexample: the claim says an elapsed time exactly equal to
5000 ticks already counts as timed out.  The code compares with a strict
`>` (main.c line 479): with the command sent at tick 0 and the current
tick 5000, `Is_Timedout` reports not timed out. -/
theorem C4_counterexample : Is_Timedout 0 5000 5000 = false := by decide

/-- C4 amended: with a command sent (status `Waiting`) and no
classifying frame, the status becomes `Timeout` once the elapsed ticks
strictly exceed 5000 (elapsed exactly 5000 does not yet time out; the
strictly-greater comparison is authoritative), and the timeout
transition never changes the provisioning stage. -/
theorem C4_timeout_threshold :
    (∀ sent cur, sent < 2 ^ 32 → cur < 2 ^ 32 → sent ≤ cur →
      (Is_Timedout sent cur 5000 = true ↔ 5000 < cur - sent)) ∧
    (∀ s sent cur, (timeoutStep s sent cur).setup_stage = s.setup_stage) ∧
    (∀ s sent cur, s.response_status = WAITING →
      Is_Timedout sent cur 5000 = true →
      (timeoutStep s sent cur).response_status = TIMEOUT) := by
  refine ⟨?_, ?_, ?_⟩
  · intro sent cur h1 h2 h3
    unfold Is_Timedout usub32
    have hs : sent % 2 ^ 32 = sent := Nat.mod_eq_of_lt h1
    have hc : cur % 2 ^ 32 = cur := Nat.mod_eq_of_lt h2
    rw [hs, hc]
    constructor
    · intro h
      simp only [decide_eq_true_eq] at h
      omega
    · intro h
      simp only [decide_eq_true_eq]
      omega
  · intro s sent cur
    unfold timeoutStep
    split <;> simp [Change_Response_Status]
  · intro s sent cur hw ht
    unfold timeoutStep
    rw [ht, hw]
    simp [Change_Response_Status, WAITING, TIMEOUT]

/-- C4 witness: sent at tick 0, current tick 5001 — timed out, status
moves `WAITING → TIMEOUT`, stage kept. -/
theorem C4_witness :
    (Is_Timedout 0 5001 5000 = true ↔ 5000 < 5001 - 0) ∧
      (timeoutStep ⟨AT_TEST, WAITING, 0⟩ 0 5001).setup_stage = AT_TEST ∧
      (timeoutStep ⟨AT_TEST, WAITING, 0⟩ 0 5001).response_status = TIMEOUT :=
  ⟨C4_timeout_threshold.1 0 5001 (by decide) (by decide) (by decide),
    C4_timeout_threshold.2.1 ⟨AT_TEST, WAITING, 0⟩ 0 5001,
    C4_timeout_threshold.2.2 ⟨AT_TEST, WAITING, 0⟩ 0 5001 rfl (by decide)⟩

/-! ## Server send pacing (C5) -/

/-- The orchestrator state touched by `Send_Data_To_Server`: its static
`last_send_time` (main.c line 914) and the global
`connection_established` (line 131). -/
structure ConnState where
  last_send_time : Nat
  connection_established : Bool
deriving DecidableEq, Repr

/-- One invocation's observable environment for `Send_Data_To_Server`:
the tick at call entry, whether the `AT+CIPSTATUS` poll shows a lost
connection (`"STATUS:4"`/`"STATUS:5"` in the frame), whether the `>`
prompt appears within the retried `AT+CIPSEND` handshake, whether
`"SEND OK"` arrives within its 2000-tick wait, the tick at which that
acknowledgment is observed, and the tick at which the call returns to
the foreground loop.  The loop is single-threaded, so the next
invocation cannot start before `retTick`. -/
structure SendEnv where
  callTick : Nat
  statusLost : Bool
  promptSeen : Bool
  sendOkSeen : Bool
  ackTick : Nat
  retTick : Nat
deriving DecidableEq, Repr

/-- `Send_Data_To_Server` (main.c lines 913-1027), returning the number
of payload transmissions (0 or 1) and the updated state.  In order: the
500-tick pacing gate returns silently; a lost-connection status clears
`connection_established` and returns; failing to see the `>` prompt
after the retries clears `connection_established` and returns; otherwise
the payload is transmitted once, and `last_send_time` is updated to the
acknowledgment tick only when `"SEND OK"` is seen.  (The
`strlen(request) > 512` early return is dead: the request is built by
`snprintf` into a 512-byte buffer, so its length is at most 511.) -/
def Send_Data_To_Server (st : ConnState) (env : SendEnv) : Nat × ConnState :=
  if usub32 env.callTick st.last_send_time < 500 then (0, st)
  else if env.statusLost then (0, { st with connection_established := false })
  else if !env.promptSeen then (0, { st with connection_established := false })
  else if env.sendOkSeen then (1, { st with last_send_time := env.ackTick })
  else (1, st)

/-- Realizable timing of one `Send_Data_To_Server` invocation, read off
the blocking structure of main.c lines 913-1027 on the monotonic
`HAL_GetTick` counter: ticks are `uint32_t` readings; the call returns
no earlier than it entered; if it transmitted and saw `"SEND OK"`, the
acknowledgment tick (which stamps `last_send_time`, line 1015) lies
between entry and return; if it transmitted and never saw `"SEND OK"`,
the full 2000-tick wait (lines 1011-1019) elapsed inside the call before
it returned — in the source the return is later still, after the
`HAL_Delay(100/200/50)` steps of the handshake. -/
def Send_Timing_WF (st : ConnState) (e : SendEnv) : Prop :=
  e.callTick < 2 ^ 32 ∧
  e.ackTick < 2 ^ 32 ∧
  e.callTick ≤ e.retTick ∧
  ((Send_Data_To_Server st e).1 = 1 → e.sendOkSeen = true →
    e.callTick ≤ e.ackTick ∧ e.ackTick ≤ e.retTick) ∧
  ((Send_Data_To_Server st e).1 = 1 → e.sendOkSeen = false →
    e.callTick + 2000 ≤ e.retTick)

instance (st : ConnState) (e : SendEnv) : Decidable (Send_Timing_WF st e) := by
  unfold Send_Timing_WF
  exact inferInstance

/-- A call entering inside the 500-tick pacing window returns silently:
no transmission, no state change (main.c lines 919-921). -/
theorem send_gate_drop (st : ConnState) (e : SendEnv)
    (h : usub32 e.callTick st.last_send_time < 500) :
    Send_Data_To_Server st e = (0, st) := by
  unfold Send_Data_To_Server
  rw [if_pos h]

/-- C5: for every realizable pair of invocations of
`Send_Data_To_Server` separated by fewer than 500 ticks — the second
entering at or after the first's return, as the single-threaded loop
forces — in which the first call transmits, exactly one transmission
attempt results: the second call falls inside the 500-tick minimum
inter-send interval and returns silently, without transmitting and
without changing any state.  Realizability is what rules out an
unacknowledged fast first call: a transmit that never sees `"SEND OK"`
blocks through the full 2000-tick wait before returning, so no second
call can enter within 500 ticks of it; a transmitting first call in a
sub-500-tick pair is therefore acknowledged, and its `last_send_time`
stamp gates the second call. -/
theorem C5_paced_single_send (st : ConnState) (e1 e2 : SendEnv)
    (hwf : Send_Timing_WF st e1)
    (hseq : e1.retTick ≤ e2.callTick)
    (hsep : e2.callTick < e1.callTick + 500)
    (hsent : (Send_Data_To_Server st e1).1 = 1) :
    Send_Data_To_Server (Send_Data_To_Server st e1).2 e2 =
      (0, (Send_Data_To_Server st e1).2) ∧
    (Send_Data_To_Server st e1).1 +
      (Send_Data_To_Server (Send_Data_To_Server st e1).2 e2).1 = 1 := by
  have hsent' := hsent
  unfold Send_Data_To_Server at hsent'
  by_cases h1 : usub32 e1.callTick st.last_send_time < 500
  · simp [h1] at hsent'
  · by_cases hsl : e1.statusLost
    · simp [h1, hsl] at hsent'
    · by_cases hp : e1.promptSeen
      · by_cases hok : e1.sendOkSeen
        · have hstate : Send_Data_To_Server st e1 =
              (1, { st with last_send_time := e1.ackTick }) := by
            unfold Send_Data_To_Server
            simp [h1, hsl, hp, hok]
          have hx := hwf.2.2.2.1 hsent hok
          have hgate : usub32 e2.callTick e1.ackTick < 500 := by
            have hb := hwf.2.1
            unfold usub32
            omega
          have hmain : Send_Data_To_Server (Send_Data_To_Server st e1).2 e2 =
              (0, (Send_Data_To_Server st e1).2) := by
            rw [hstate]
            exact send_gate_drop { st with last_send_time := e1.ackTick } e2 hgate
          refine ⟨hmain, ?_⟩
          rw [hsent, hmain]
          rfl
        · exfalso
          have hokf : e1.sendOkSeen = false := by
            simpa using hok
          have h5 := hwf.2.2.2.2 hsent hokf
          omega
      · simp [h1, hsl, hp] at hsent'

/-- C5 witness: first call at tick 1000, acknowledged at tick 1300,
returns at tick 1350; the second call at tick 1400 — 400 ticks after the
first — is silently dropped with no state change, one transmission in
total. -/
theorem C5_witness :
    Send_Data_To_Server (Send_Data_To_Server ⟨0, true⟩
        ⟨1000, false, true, true, 1300, 1350⟩).2 ⟨1400, false, true, true, 1400, 1450⟩ =
      (0, (Send_Data_To_Server ⟨0, true⟩ ⟨1000, false, true, true, 1300, 1350⟩).2) ∧
    (Send_Data_To_Server ⟨0, true⟩ ⟨1000, false, true, true, 1300, 1350⟩).1 +
      (Send_Data_To_Server (Send_Data_To_Server ⟨0, true⟩
        ⟨1000, false, true, true, 1300, 1350⟩).2 ⟨1400, false, true, true, 1400, 1450⟩).1 = 1 :=
  C5_paced_single_send ⟨0, true⟩ ⟨1000, false, true, true, 1300, 1350⟩
    ⟨1400, false, true, true, 1400, 1450⟩ (by decide) (by decide) (by decide)
    (by decide)

/-! ## Binary packet layout (C7) -/

/-- The 16-bit two's-complement image of a signed 16-bit value, i.e. the
unsigned bit pattern the C code manipulates via `& 0xFF` and
`>> 8`. -/
def toU16 (x : Int) : Nat :=
  (x % 65536).toNat

/-- `Pack_Data` (main.c lines 326-337): the 10-byte frame
`[header lo, header hi, seq lo, seq hi, x lo, x hi, y lo, y hi, z lo, z hi]`,
all fields little-endian.  `header` and `packet_number` are `uint16_t`
(so `(v >> 8) & 0xFF` is `v / 256 % 256`); the axes are `int16_t`, whose
`& 0xFF` and arithmetic `>> 8` agree with the corresponding bytes of the
two's-complement image `toU16`. -/
def Pack_Data (header packet_number : Nat) (x y z : Int) : List Nat :=
  [header % 256, header / 256 % 256,
   packet_number % 256, packet_number / 256 % 256,
   toU16 x % 256, toU16 x / 256 % 256,
   toU16 y % 256, toU16 y / 256 % 256,
   toU16 z % 256, toU16 z / 256 % 256]

/-- A little-endian byte pair read back as an unsigned 16-bit value. -/
def le16 (lo hi : Nat) : Nat :=
  lo + 256 * hi

/-- Reinterpret an unsigned 16-bit value as a signed 16-bit value. -/
def sint16 (u : Nat) : Int :=
  if u < 32768 then (u : Int) else (u : Int) - 65536

/-- Decode the 10-byte frame as five little-endian 16-bit fields:
unsigned header and sequence number, signed axes. -/
def Unpack_Data (bs : List Nat) : Nat × Nat × Int × Int × Int :=
  match bs with
  | [b0, b1, b2, b3, b4, b5, b6, b7, b8, b9] =>
      (le16 b0 b1, le16 b2 b3,
       sint16 (le16 b4 b5), sint16 (le16 b6 b7), sint16 (le16 b8 b9))
  | _ => (0, 0, 0, 0, 0)

/-- Reassembling the two little-endian bytes of a two's-complement image
and reinterpreting as signed recovers the original value. -/
theorem sint16_le16_toU16 (x : Int) (h1 : -32768 ≤ x) (h2 : x < 32768) :
    sint16 (le16 (toU16 x % 256) (toU16 x / 256 % 256)) = x := by
  unfold sint16 le16 toU16
  split <;> omega

/-- C7: for every 16-bit header, 16-bit packet sequence number and
signed 16-bit axes `(x, y, z)`, decoding the 10-byte buffer written by
`Pack_Data` as five little-endian 16-bit fields recovers the header, the
sequence number and `x`, `y`, `z` exactly. -/
theorem C7_pack_roundtrip (header packet_number : Nat) (x y z : Int)
    (hh : header < 65536) (hp : packet_number < 65536)
    (hx1 : -32768 ≤ x) (hx2 : x < 32768)
    (hy1 : -32768 ≤ y) (hy2 : y < 32768)
    (hz1 : -32768 ≤ z) (hz2 : z < 32768) :
    Unpack_Data (Pack_Data header packet_number x y z) =
      (header, packet_number, x, y, z) := by
  simp only [Pack_Data, Unpack_Data]
  rw [sint16_le16_toU16 x hx1 hx2, sint16_le16_toU16 y hy1 hy2,
    sint16_le16_toU16 z hz1 hz2]
  unfold le16
  have h1 : header % 256 + 256 * (header / 256 % 256) = header := by omega
  have h2 : packet_number % 256 + 256 * (packet_number / 256 % 256) =
      packet_number := by omega
  rw [h1, h2]

/-- C7 witness: the accelerometer header `0xBBBB`, sequence 1 and the
sample `(16384, 0, -16384)` round-trip exactly. -/
theorem C7_witness :
    Unpack_Data (Pack_Data 48059 1 16384 0 (-16384)) = (48059, 1, 16384, 0, -16384) :=
  C7_pack_roundtrip 48059 1 16384 0 (-16384) (by decide) (by decide)
    (by decide) (by decide) (by decide) (by decide) (by decide) (by decide)

/-! ## Transmission-mode cycle and sensor delivery destinations (C8) -/

/-- The long-press mode cycle (main.c line 1105):
`transmission_mode = (transmission_mode + 1) % 5`. -/
def cycleMode (m : Nat) : Nat :=
  (m + 1) % 5

/-- The transmission mode after `k` long presses from the initial
`MODE_NONE`. -/
def modeAfter : Nat → Nat
  | 0 => MODE_NONE
  | k + 1 => cycleMode (modeAfter k)

/-- Where a sensor handler ships its packet. -/
inductive Delivery where
  | uartBinary
  | cdcBinary
  | serverText
  | cdcText
  | dropped
deriving DecidableEq, Repr

/-- The destination selection shared by `Handle_Magnetometer`,
`Handle_Accelerometer` and `Handle_Gyroscope`
(main.c lines 373-386, 400-413, 426-439) together with
`Transmit_Data_ASCII` (lines 340-362): `MODE_BINARY_UART` transmits the
10-byte binary packet over `huart2` — the modem UART; `MODE_BINARY_CDC`
over USB CDC; `MODE_ASCII_UART` hands the text packet to
`Send_Data_To_Server`; `MODE_ASCII_CDC` sends text over USB CDC; any
other mode emits nothing. -/
def Handle_Sensor_Delivery (mode : Nat) : Delivery :=
  if mode = MODE_BINARY_UART ∨ mode = MODE_BINARY_CDC then
    if mode = MODE_BINARY_UART then Delivery.uartBinary else Delivery.cdcBinary
  else if mode = MODE_ASCII_UART ∨ mode = MODE_ASCII_CDC then
    if mode = MODE_ASCII_UART then Delivery.serverText else Delivery.cdcText
  else Delivery.dropped

/-- C8 counterexample: the claim says the remote-binary destination is
never exercised from the mode cycle.  But a single long press from the
initial mode reaches `MODE_BINARY_UART`, in which every sensor handler
transmits its 10-byte binary packet over `huart2`, the modem UART
(main.c lines 403-404). -/
theorem C8_counterexample :
    modeAfter 1 = MODE_BINARY_UART ∧
      Handle_Sensor_Delivery (modeAfter 1) = Delivery.uartBinary := by
  decide

/-- C8 amended: the binary-over-modem-UART destination is reachable —
one long press from the initial mode selects `MODE_BINARY_UART`, where
sensor handlers transmit the binary packet over the modem UART.  What
does hold: the remote TCP send path (`Send_Data_To_Server`) is reached
only in the remote-text mode `MODE_ASCII_UART`, so no binary packet is
ever delivered through the modem's TCP connection. -/
theorem C8_remote_binary_reachable :
    modeAfter 1 = MODE_BINARY_UART ∧
      Handle_Sensor_Delivery MODE_BINARY_UART = Delivery.uartBinary ∧
      (∀ m, Handle_Sensor_Delivery m = Delivery.serverText → m = MODE_ASCII_UART) := by
  refine ⟨rfl, rfl, ?_⟩
  intro m h
  unfold Handle_Sensor_Delivery at h
  by_cases h1 : m = MODE_BINARY_UART ∨ m = MODE_BINARY_CDC
  · rw [if_pos h1] at h
    rcases h1 with h1 | h1 <;> subst h1 <;> revert h <;> decide
  · rw [if_neg h1] at h
    by_cases h2 : m = MODE_ASCII_UART ∨ m = MODE_ASCII_CDC
    · rw [if_pos h2] at h
      rcases h2 with h2 | h2
      · exact h2
      · subst h2
        revert h
        decide
    · rw [if_neg h2] at h
      exact absurd h (by decide)

/-- C8 witness: the server-text destination at `MODE_ASCII_UART`
discharges the amended theorem's hypothesis. -/
theorem C8_witness :
    MODE_ASCII_UART = MODE_ASCII_UART ∧ modeAfter 1 = MODE_BINARY_UART :=
  ⟨C8_remote_binary_reachable.2.2 MODE_ASCII_UART (by decide),
    C8_remote_binary_reachable.1⟩

/-! ## Foreground-loop gating of sensor service (C9) -/

/-- The main-loop globals relevant to connection gating:
`transmission_mode` (main.c line 108) and `connection_established`
(line 131). -/
structure MainState where
  transmission_mode : Nat
  connection_established : Bool
deriving DecidableEq, Repr

/-- One loop iteration's environment: the pending button gesture, the
sensor data-ready flags as latched when the sensor block runs, and the
`response_status` that `Establish_Connection` would leave if invoked
(`SUCCESS`, `ERROR` or `TIMEOUT`). -/
structure IterEnv where
  buttonPending : Bool
  buttonLong : Bool
  dr_mag : Bool
  dr_acc : Bool
  dr_gyr : Bool
  establishResult : Nat
deriving DecidableEq, Repr

/-- The button block (main.c lines 1101-1109): a pending long press
cycles the transmission mode (a short press only sets
`response_status := SEND_REQUEST`, which touches no modelled field). -/
def buttonStep (s : MainState) (e : IterEnv) : MainState :=
  if e.buttonPending && e.buttonLong then
    { s with transmission_mode := cycleMode s.transmission_mode }
  else s

/-- The connection block (main.c lines 1111-1127):
`Establish_Connection` is invoked only when `connection_established` is
clear and the mode is `MODE_ASCII_UART`; `connection_established` is set
only when the resulting status is `SUCCESS`.  The returned `Bool`
records whether the attempt was made. -/
def connectStep (s : MainState) (e : IterEnv) : MainState × Bool :=
  if !s.connection_established && (s.transmission_mode == MODE_ASCII_UART) then
    (if e.establishResult == SUCCESS then
       { s with connection_established := true }
     else s, true)
  else (s, false)

/-- The sensor block (main.c lines 1130-1146): handlers run only inside
`if (connection_established)`.  Returns whether any handler ran. -/
def sensorStep (s : MainState) (e : IterEnv) : Bool :=
  if s.connection_established then e.dr_mag || e.dr_acc || e.dr_gyr else false

/-- One foreground loop iteration (the parts of `while (1)` in main.c
lines 1083-1147 that touch the modelled state), returning the new state,
whether a sensor handler ran, and whether a connection attempt was
made. -/
def loopIter (s : MainState) (e : IterEnv) : MainState × Bool × Bool :=
  let s1 := buttonStep s e
  let ca := connectStep s1 e
  (ca.1, sensorStep ca.1 e, ca.2)

/-- A run of consecutive loop iterations; the `Bool` records whether any
sensor handler ran anywhere in the run. -/
def loopRun : MainState → List IterEnv → MainState × Bool
  | s, [] => (s, false)
  | s, e :: es =>
      let it := loopIter s e
      let rest := loopRun it.1 es
      (rest.1, it.2.1 || rest.2)

/-- `connectStep` reports an attempt only when the mode is
`MODE_ASCII_UART`. -/
theorem connectStep_attempt (s : MainState) (e : IterEnv) :
    (connectStep s e).2 = true → s.transmission_mode = MODE_ASCII_UART := by
  unfold connectStep
  split
  case isTrue hg =>
    intro _
    simp only [Bool.and_eq_true, beq_iff_eq] at hg
    exact hg.2
  case isFalse hg =>
    intro h
    simp at h

/-- `connectStep` never changes the transmission mode. -/
theorem connectStep_mode (s : MainState) (e : IterEnv) :
    (connectStep s e).1.transmission_mode = s.transmission_mode := by
  unfold connectStep
  split
  · split <;> rfl
  · rfl

/-- `connectStep` keeps `connection_established` clear whenever the
environment does not grant `SUCCESS`. -/
theorem connectStep_not_established (s : MainState) (e : IterEnv)
    (hc : s.connection_established = false)
    (he : e.establishResult ≠ SUCCESS) :
    (connectStep s e).1.connection_established = false := by
  unfold connectStep
  split
  · have : (e.establishResult == SUCCESS) = false := by
      simp [he]
    rw [this]
    simpa using hc
  · simpa using hc

/-- C9: a pending sensor data-ready flag is serviced only if
`connection_established` is set; `Establish_Connection` is attempted
only while the transmission mode is `MODE_ASCII_UART`; and in any run
starting with the connection down in which the environment never
returns `SUCCESS` for an establishment attempt, the connection stays
down and no sensor sample is ever handled, whatever the transmission
modes visited. -/
theorem C9_no_service_before_connection :
    (∀ s e, (loopIter s e).2.1 = true → (loopIter s e).1.connection_established = true) ∧
    (∀ s e, (loopIter s e).2.2 = true →
      (loopIter s e).1.transmission_mode = MODE_ASCII_UART) ∧
    (∀ s es, s.connection_established = false →
      (∀ e ∈ es, e.establishResult ≠ SUCCESS) →
      (loopRun s es).1.connection_established = false ∧ (loopRun s es).2 = false) := by
  refine ⟨?_, ?_, ?_⟩
  · intro s e h
    unfold loopIter sensorStep at h ⊢
    by_cases hc : (connectStep (buttonStep s e) e).1.connection_established
    · exact hc
    · simp [hc] at h
  · intro s e h
    have h2 : (connectStep (buttonStep s e) e).2 = true := h
    have hm := connectStep_attempt (buttonStep s e) e h2
    show (connectStep (buttonStep s e) e).1.transmission_mode = MODE_ASCII_UART
    rw [connectStep_mode]
    exact hm
  · intro s es
    induction es generalizing s with
    | nil => intro hc _; exact ⟨hc, rfl⟩
    | cons e es ih =>
      intro hc hall
      have he : e.establishResult ≠ SUCCESS := hall e (List.mem_cons_self e es)
      have hb : (buttonStep s e).connection_established = false := by
        unfold buttonStep
        split <;> simpa using hc
      have hstep : (connectStep (buttonStep s e) e).1.connection_established = false :=
        connectStep_not_established (buttonStep s e) e hb he
      have hrest := ih (connectStep (buttonStep s e) e).1 hstep
        (fun e' he' => hall e' (List.mem_cons_of_mem e he'))
      refine ⟨?_, ?_⟩
      · unfold loopRun loopIter
        exact hrest.1
      · unfold loopRun loopIter
        simp only [Bool.or_eq_false_iff]
        refine ⟨?_, hrest.2⟩
        unfold sensorStep
        rw [hstep]
        simp

/-- C9 witness: a one-iteration run with a pending magnetometer sample
and a failing establishment attempt services nothing and leaves the
connection down. -/
theorem C9_witness :
    (loopRun ⟨MODE_NONE, false⟩
        [⟨false, false, true, false, false, ERROR⟩]).1.connection_established = false ∧
      (loopRun ⟨MODE_NONE, false⟩ [⟨false, false, true, false, false, ERROR⟩]).2 = false :=
  C9_no_service_before_connection.2.2 ⟨MODE_NONE, false⟩
    [⟨false, false, true, false, false, ERROR⟩] rfl (by decide)

/-! ## Frame classification (C10) -/

/-- Whether the list starts with the given pattern. -/
def listStartsWith : List Char → List Char → Bool
  | _, [] => true
  | [], _ :: _ => false
  | c :: s, p :: ps => c == p && listStartsWith s ps

/-- `strstr`-style substring search: does `pat` occur anywhere in
`s`? -/
def hasSub : List Char → List Char → Bool
  | [], pat => listStartsWith [] pat
  | c :: s, pat => listStartsWith (c :: s) pat || hasSub s pat

/-- `strstr` against a string-literal pattern. -/
def hasSubStr (s : List Char) (pat : String) : Bool :=
  hasSub s pat.toList

/-- The state read and written by `Check_Reception_Completion`: the
accumulated frame (`rx_buffer` up to its terminator), the response
status pair and the two client flags (main.c lines 121-129). -/
structure CRState where
  frame : List Char
  response_status : Nat
  has_response_changed : Nat
  is_client_connected : Bool
  is_client_requesting_page : Bool
deriving DecidableEq, Repr

/-- `Check_Reception_Completion` (main.c lines 757-806).  Nothing
happens until the frame holds a double CR-LF.  Then: a frame carrying
`"GET /?ssid="` is routed to `Handle_Client_Request` (lines 555-591),
which extracts the credentials, clears the buffer and issues the
`AT+CWJAP` command via `Send_Command` — which itself clears the buffer
again and sets the status to `WAITING` (lines 467-474); next the client
connect/close markers update the two flags; next `"OK"` is searched
before `"ERROR"`, the first hit setting the status; finally the buffer
is cleared. -/
def Check_Reception_Completion (s : CRState) : CRState :=
  if hasSubStr s.frame "\r\n\r\n" then
    let frame1 :=
      if hasSubStr s.frame "GET /?ssid=" then ([] : List Char) else s.frame
    let rc1 :=
      if hasSubStr s.frame "GET /?ssid=" then
        Change_Response_Status s.response_status s.has_response_changed WAITING
      else (s.response_status, s.has_response_changed)
    let icc :=
      if hasSubStr frame1 "+STA_CONNECTED" then true
      else if hasSubStr frame1 "+STA_DISCONNECTED" then false
      else s.is_client_connected
    let icr :=
      if hasSubStr frame1 "0,CONNECT" then true
      else if hasSubStr frame1 "0,CLOSED" then false
      else s.is_client_requesting_page
    let rc2 :=
      if hasSubStr frame1 "OK" then
        Change_Response_Status rc1.1 rc1.2 SUCCESS
      else if hasSubStr frame1 "ERROR" then
        Change_Response_Status rc1.1 rc1.2 ERROR
      else rc1
    ⟨[], rc2.1, rc2.2, icc, icr⟩
  else s

/-- C10 counterexample: the claim says every completed frame containing
both `"OK"` and `"ERROR"` is classified `Success`.  But a frame that
also carries `"GET /?ssid="` is first routed to `Handle_Client_Request`,
which clears the buffer and arms the `AT+CWJAP` command — setting the
status to `WAITING` — before the `"OK"` search runs on the now-empty
buffer, so classification ends `WAITING`, not `SUCCESS`. -/
theorem C10_counterexample :
    hasSubStr (String.toList "GET /?ssid=a&password=b \r\nOK\r\nERROR\r\n\r\n") "OK" = true ∧
      hasSubStr (String.toList "GET /?ssid=a&password=b \r\nOK\r\nERROR\r\n\r\n") "ERROR" = true ∧
      hasSubStr (String.toList "GET /?ssid=a&password=b \r\nOK\r\nERROR\r\n\r\n") "\r\n\r\n" = true ∧
      (Check_Reception_Completion
        ⟨String.toList "GET /?ssid=a&password=b \r\nOK\r\nERROR\r\n\r\n",
          IDLE, 0, false, false⟩).response_status = WAITING ∧
      WAITING ≠ SUCCESS := by
  refine ⟨by decide, by decide, by decide, by decide, by decide⟩

/-- C10 amended: for every completed frame (double CR-LF detected) that
contains both `"OK"` and `"ERROR"` and does not contain the credential
marker `"GET /?ssid="`, classification sets the response status to
`Success`, never to `Error`: the `"OK"` check takes precedence over the
`"ERROR"` check. -/
theorem C10_ok_precedes_error (s : CRState)
    (hterm : hasSubStr s.frame "\r\n\r\n" = true)
    (hok : hasSubStr s.frame "OK" = true)
    (_herr : hasSubStr s.frame "ERROR" = true)
    (hssid : hasSubStr s.frame "GET /?ssid=" = false) :
    (Check_Reception_Completion s).response_status = SUCCESS := by
  unfold Check_Reception_Completion
  rw [hterm]
  simp [hssid, hok, Change_Response_Status, SUCCESS]

/-- C10 witness: the frame `"AT\r\nOK\r\nERROR\r\n\r\n"` classifies as
`SUCCESS`. -/
theorem C10_witness :
    (Check_Reception_Completion
        ⟨String.toList "AT\r\nOK\r\nERROR\r\n\r\n", IDLE, 0, false, false⟩).response_status =
      SUCCESS :=
  C10_ok_precedes_error
    ⟨String.toList "AT\r\nOK\r\nERROR\r\n\r\n", IDLE, 0, false, false⟩
    (by decide) (by decide) (by decide) (by decide)
